import Mathlib

/-!
Shallow embedding of the graph text editor component
(`src/src/components/GraphEditor.tsx`).

The component is a single React function component whose state cells
(`useState`) we gather into one record `GraphState`.  Each event handler
or action of the source becomes a pure function from inputs and old state
to new state; handlers that fire toast notifications additionally return
the list of toasts they emitted.  Machine `number`s carrying coordinates,
pan and zoom are modelled as rationals; timestamps (`Date.now()`) as
integers passed in explicitly; `Math.random()` results are passed in as
explicit parameters.
-/

namespace GraphEditor

/-- Source type `NodeType`: id, display text and world position. -/
structure NodeType where
  id : String
  text : String
  x : ℚ
  y : ℚ
deriving DecidableEq, Repr

/-- Source type `EdgeType`: id, endpoint ids and the type tag
(the source's literal union `'primary' | 'alias'`, kept as a string). -/
structure EdgeType where
  id : String
  from_ : String
  to_ : String
  type : String
deriving DecidableEq, Repr

/-- Kind of a toast notification (`toast.success` / `toast.error`). -/
inductive ToastKind where
  | success
  | error
deriving DecidableEq, Repr

/-- A toast notification emitted by a handler. -/
structure Toast where
  kind : ToastKind
  msg : String
deriving DecidableEq, Repr

/-- All `useState` cells of the `GraphEditor` component in one record. -/
structure GraphState where
  nodes : List NodeType
  edges : List EdgeType
  selectedNode : Option String
  editingNode : Option String
  searchQuery : String
  dragNode : Option String
  dragOffset : ℚ × ℚ
  pan : ℚ × ℚ
  zoom : ℚ
  isPanning : Bool
  panStart : ℚ × ℚ
  isMobile : Bool
  showSidebar : Bool
  lastTap : ℤ
deriving DecidableEq, Repr

/-- The component's initial state (`useState` initialisers); `isMobile`
is `window.innerWidth < 768`, passed in. -/
def initialState (isMobile : Bool) : GraphState where
  nodes :=
    [ ⟨"1", "Начальная идея", 200, 150⟩,
      ⟨"2", "Развитие концепции", 450, 150⟩,
      ⟨"3", "Альтернативный подход", 325, 300⟩ ]
  edges :=
    [ ⟨"e1", "1", "2", "primary"⟩,
      ⟨"e2", "2", "3", "alias"⟩ ]
  selectedNode := none
  editingNode := none
  searchQuery := ""
  dragNode := none
  dragOffset := (0, 0)
  pan := (0, 0)
  zoom := 1
  isPanning := false
  panStart := (0, 0)
  isMobile := isMobile
  showSidebar := false
  lastTap := 0

/-- The spec's coordinate transform `toWorld(screenPoint, pan, zoom) =
(screenPoint - pan) / zoom`, the expression the handlers inline. -/
def toWorld (p pan : ℚ × ℚ) (zoom : ℚ) : ℚ × ℚ :=
  ((p.1 - pan.1) / zoom, (p.2 - pan.2) / zoom)

/-- Source action `addNode`: `now` is `Date.now()`, `rx`/`ry` the two `Math.random()`
draws.  The id is `Date.now().toString()`. -/
def addNode (now : ℕ) (rx ry : ℚ) (s : GraphState) : GraphState × List Toast :=
  let newNode : NodeType :=
    { id := toString now
      text := "Новый узел"
      x := 300 + rx * 100
      y := 200 + ry * 100 }
  ({ s with
      nodes := s.nodes ++ [newNode]
      selectedNode := some newNode.id
      editingNode := some newNode.id },
   [⟨ToastKind.success, "Узел создан"⟩])

/-- Source action `deleteNode(id)`: filters the node out, drops incident edges, and
unconditionally nulls selection and edit mode. -/
def deleteNode (id : String) (s : GraphState) : GraphState × List Toast :=
  ({ s with
      nodes := s.nodes.filter (fun n => !(n.id == id))
      edges := s.edges.filter (fun e => !(e.from_ == id) && !(e.to_ == id))
      selectedNode := none
      editingNode := none },
   [⟨ToastKind.success, "Узел удалён"⟩])

/-- Source action `updateNodeText(id, text)`: maps over the nodes, replacing the text
of those whose id matches. -/
def updateNodeText (id text : String) (s : GraphState) : GraphState :=
  { s with
      nodes := s.nodes.map (fun n => if n.id == id then { n with text := text } else n) }

/-- Source action `addEdge(type)`: requires a selected node; aborts with an error toast
when no other node exists; otherwise appends one edge to the first other
node.  `now` is `Date.now()`. -/
def addEdge (now : ℕ) (ty : String) (s : GraphState) : GraphState × List Toast :=
  match s.selectedNode with
  | none => (s, [])
  | some sel =>
    let otherNodes := s.nodes.filter (fun n => !(n.id == sel))
    match otherNodes with
    | [] => (s, [⟨ToastKind.error, "Нужен ещё один узел для создания связи"⟩])
    | targetNode :: _ =>
      let newEdge : EdgeType :=
        { id := toString now, from_ := sel, to_ := targetNode.id, type := ty }
      ({ s with edges := s.edges ++ [newEdge] },
       [⟨ToastKind.success,
         if ty == "primary" then "Связь основная создана" else "Связь псевдоним создана"⟩])

/-- Source action `deleteEdge(id)`: filters the edge out by id. -/
def deleteEdge (id : String) (s : GraphState) : GraphState × List Toast :=
  ({ s with edges := s.edges.filter (fun e => !(e.id == id)) },
   [⟨ToastKind.success, "Связь удалена"⟩])

/-- Predicate `startsWithList s q`: the char list `s` starts with `q`. -/
def startsWithList : List Char → List Char → Bool
  | _, [] => true
  | [], _ :: _ => false
  | a :: s, b :: q => a == b && startsWithList s q

/-- Predicate `hasSubstr s q`: `q` occurs as a contiguous substring of `s`
(JavaScript's `String.prototype.includes`). -/
def hasSubstr : List Char → List Char → Bool
  | [], q => q.isEmpty
  | a :: s, q => startsWithList (a :: s) q || hasSubstr s q

/-- JavaScript's `String.prototype.toLowerCase`, character by character. -/
def lowerStr (s : String) : String :=
  ⟨s.data.map Char.toLower⟩

/-- The `filteredNodes` derived value: nodes whose lower-cased text
contains the lower-cased query. -/
def filteredNodes (s : GraphState) : List NodeType :=
  s.nodes.filter (fun node =>
    hasSubstr (lowerStr node.text).data (lowerStr s.searchQuery).data)

/-- The `filteredEdges` derived value: all edges when the query is empty
(falsy), otherwise edges whose both endpoints are in `filteredNodes`. -/
def filteredEdges (s : GraphState) : List EdgeType :=
  if s.searchQuery == "" then s.edges
  else
    s.edges.filter (fun edge =>
      (filteredNodes s).any (fun n => n.id == edge.from_) &&
      (filteredNodes s).any (fun n => n.id == edge.to_))

/-- Source handler `handleNodePointerDown`: double-tap detection against `lastTap`,
else drag start with grab offset `(client - pan)/zoom - node.pos`.
`now` is `new Date().getTime()`. -/
def handleNodePointerDown (now : ℤ) (clientX clientY : ℚ) (nodeId : String)
    (s : GraphState) : GraphState :=
  match s.nodes.find? (fun n => n.id == nodeId) with
  | none => s
  | some node =>
    let tapGap := now - s.lastTap
    if tapGap < 300 ∧ tapGap > 0 then
      { s with editingNode := some nodeId, lastTap := 0 }
    else
      { s with
          lastTap := now
          dragNode := some nodeId
          selectedNode := some nodeId
          showSidebar := if s.isMobile then true else s.showSidebar
          dragOffset :=
            ((clientX - s.pan.1) / s.zoom - node.x,
             (clientY - s.pan.2) / s.zoom - node.y) }

/-- Source handler `handleCanvasPointerDown` (reached only when the hit target is not a
node): starts panning and clears selection. -/
def handleCanvasPointerDown (clientX clientY : ℚ) (s : GraphState) : GraphState :=
  { s with
      isPanning := true
      panStart := (clientX - s.pan.1, clientY - s.pan.2)
      selectedNode := none
      showSidebar := if s.isMobile then false else s.showSidebar }

/-- Source handler `handlePointerMove`: drag branch moves the dragged node to
`(client - pan)/zoom - dragOffset`; pan branch moves the pan. -/
def handlePointerMove (clientX clientY : ℚ) (s : GraphState) : GraphState :=
  match s.dragNode with
  | some d =>
    let newX := (clientX - s.pan.1) / s.zoom - s.dragOffset.1
    let newY := (clientY - s.pan.2) / s.zoom - s.dragOffset.2
    { s with
        nodes := s.nodes.map (fun n => if n.id == d then { n with x := newX, y := newY } else n) }
  | none =>
    if s.isPanning then
      { s with pan := (clientX - s.panStart.1, clientY - s.panStart.2) }
    else s

/-- Source handler `handlePointerUp` (also used for pointer-leave): ends drag and pan. -/
def handlePointerUp (s : GraphState) : GraphState :=
  { s with dragNode := none, isPanning := false }

/-- Source handler `handleWheel`: multiply zoom by 0.9 or 1.1 and clamp to [0.5, 2]. -/
def handleWheel (deltaY : ℚ) (s : GraphState) : GraphState :=
  let delta : ℚ := if deltaY > 0 then 9 / 10 else 11 / 10
  { s with zoom := min (max (s.zoom * delta) (1 / 2)) 2 }

/-- The zoom-in button: `min(prev + 0.2, 2)`. -/
def zoomInButton (s : GraphState) : GraphState :=
  { s with zoom := min (s.zoom + 1 / 5) 2 }

/-- The zoom-out button: `max(prev - 0.2, 0.5)`. -/
def zoomOutButton (s : GraphState) : GraphState :=
  { s with zoom := max (s.zoom - 1 / 5) (1 / 2) }

/-- The reset button: zoom 1, pan (0,0). -/
def resetButton (s : GraphState) : GraphState :=
  { s with zoom := 1, pan := (0, 0) }

/-- The zoom-affecting user actions of claim C9. -/
inductive ViewAction where
  | wheel (deltaY : ℚ)
  | zoomIn
  | zoomOut
  | reset
deriving DecidableEq, Repr

/-- Apply one zoom-affecting action. -/
def applyViewAction (a : ViewAction) (s : GraphState) : GraphState :=
  match a with
  | ViewAction.wheel d => handleWheel d s
  | ViewAction.zoomIn => zoomInButton s
  | ViewAction.zoomOut => zoomOutButton s
  | ViewAction.reset => resetButton s

/-- Apply a sequence of zoom-affecting actions in order. -/
def applyViewActions (acts : List ViewAction) (s : GraphState) : GraphState :=
  acts.foldl (fun st a => applyViewAction a st) s

/-- Apply a sequence of pointer-move events in order. -/
def applyMoves (ps : List (ℚ × ℚ)) (s : GraphState) : GraphState :=
  ps.foldl (fun st p => handlePointerMove p.1 p.2 st) s

/-- The dragged-relevant position of node `nodeId`: position of the first
node in store order with that id. -/
def nodePos (nodeId : String) (s : GraphState) : Option (ℚ × ℚ) :=
  (s.nodes.find? (fun n => n.id == nodeId)).map (fun n => (n.x, n.y))

end GraphEditor

namespace GraphEditor

/-! ### Auxiliary lemmas -/

/-- The empty query is a substring of every text. -/
theorem hasSubstr_nil (l : List Char) : hasSubstr l [] = true := by
  cases l <;> simp [hasSubstr, startsWithList]

/-- List `find?` commutes with a map that does not disturb the predicate. -/
theorem find?_map_of_pred_inv (f : NodeType → NodeType) (p : NodeType → Bool)
    (hf : ∀ n, p (f n) = p n) (l : List NodeType) :
    (l.map f).find? p = (l.find? p).map f := by
  induction l with
  | nil => rfl
  | cons a l ih =>
    by_cases h : p a = true
    · simp [List.find?_cons, hf a, h]
    · simp only [Bool.not_eq_true] at h
      simp [List.find?_cons, hf a, h, ih]

/-- A pointer-down on node `nodeId` outside the double-tap window:
the drag-start branch of `handleNodePointerDown`. -/
theorem nodeDown_register (now : ℤ) (clientX clientY : ℚ) (nodeId : String)
    (s : GraphState) (node : NodeType)
    (hfind : s.nodes.find? (fun n => n.id == nodeId) = some node)
    (hgap : ¬(now - s.lastTap < 300 ∧ now - s.lastTap > 0)) :
    handleNodePointerDown now clientX clientY nodeId s =
      { s with
          lastTap := now
          dragNode := some nodeId
          selectedNode := some nodeId
          showSidebar := if s.isMobile then true else s.showSidebar
          dragOffset :=
            ((clientX - s.pan.1) / s.zoom - node.x,
             (clientY - s.pan.2) / s.zoom - node.y) } := by
  unfold handleNodePointerDown
  rw [hfind]
  simp only [if_neg hgap]

/-- A pointer-down on node `nodeId` inside the double-tap window:
the edit-mode branch of `handleNodePointerDown`. -/
theorem nodeDown_doubleTap (now : ℤ) (clientX clientY : ℚ) (nodeId : String)
    (s : GraphState) (node : NodeType)
    (hfind : s.nodes.find? (fun n => n.id == nodeId) = some node)
    (hgap : now - s.lastTap < 300 ∧ now - s.lastTap > 0) :
    handleNodePointerDown now clientX clientY nodeId s =
      { s with editingNode := some nodeId, lastTap := 0 } := by
  unfold handleNodePointerDown
  rw [hfind]
  simp only [if_pos hgap]

end GraphEditor

namespace GraphEditor

/-! ### C10: addNode selects and edits the new node -/

/-- C10: after every invocation of `addNode`, the newly created node (the
one appended to the node list) is both the selected node and the node in
inline edit mode. -/
theorem addNode_selects_and_edits_new_node (now : ℕ) (rx ry : ℚ) (s : GraphState) :
    ∃ newNode : NodeType,
      (addNode now rx ry s).1.nodes = s.nodes ++ [newNode] ∧
      (addNode now rx ry s).1.selectedNode = some newNode.id ∧
      (addNode now rx ry s).1.editingNode = some newNode.id :=
  ⟨_, rfl, rfl, rfl⟩

/-! ### C3: deleteNode and the selection / edit-mode ids -/

/-- State for the C3 counterexample: the default component state with
node "2" selected and being edited. -/
def c3State : GraphState :=
  { initialState false with selectedNode := some "2", editingNode := some "2" }

/-- C3 counterexample: deleting node "1" while node "2" is selected and
edited.  The claim says selection and edit mode, referencing a different
node than the deleted one, stay unchanged; the code nulls both. -/
theorem deleteNode_clears_unrelated_selection :
    ("1" ∈ c3State.nodes.map NodeType.id) ∧
    c3State.selectedNode = some "2" ∧ c3State.editingNode = some "2" ∧
    ¬((deleteNode "1" c3State).1.selectedNode = c3State.selectedNode ∧
      (deleteNode "1" c3State).1.editingNode = c3State.editingNode) := by
  refine ⟨by decide, rfl, rfl, ?_⟩
  decide

/-- C3 amended: `deleteNode` always sets the selection id and the
edit-mode id to `none`, whether or not they referenced the deleted node;
in particular they are cleared whenever they did reference it. -/
theorem deleteNode_clears_selection_and_editing (id : String) (s : GraphState) :
    (deleteNode id s).1.selectedNode = none ∧
    (deleteNode id s).1.editingNode = none :=
  ⟨rfl, rfl⟩

/-! ### C8: deleteNode cascades to exactly the incident edges -/

/-- C8: for a node id present in the store, `deleteNode id` keeps exactly
the edges whose two endpoints both differ from `id`: an edge survives iff
it was in the collection and touches `id` on neither side. -/
theorem deleteNode_removes_exactly_incident_edges (id : String) (s : GraphState)
    (e : EdgeType) (hid : id ∈ s.nodes.map NodeType.id) :
    e ∈ (deleteNode id s).1.edges ↔ e ∈ s.edges ∧ e.from_ ≠ id ∧ e.to_ ≠ id := by
  simp [deleteNode, List.mem_filter, and_assoc]

/-- Witness for C8 at the initial state: deleting node "1" and testing
edge "e1" (incident) and implicitly the characterisation. -/
theorem deleteNode_removes_exactly_incident_edges_witness :
    ("1" ∈ (initialState false).nodes.map NodeType.id) ∧
    ((⟨"e1", "1", "2", "primary"⟩ : EdgeType) ∈ (deleteNode "1" (initialState false)).1.edges ↔
      (⟨"e1", "1", "2", "primary"⟩ : EdgeType) ∈ (initialState false).edges ∧
      ("1" : String) ≠ "1" ∧ ("2" : String) ≠ "1") :=
  ⟨by decide,
   deleteNode_removes_exactly_incident_edges "1" (initialState false)
     ⟨"e1", "1", "2", "primary"⟩ (by decide)⟩

end GraphEditor

namespace GraphEditor

/-! ### C9: the zoom factor stays within [0.5, 2] -/

/-- Each zoom-affecting action preserves the zoom bounds [1/2, 2]. -/
theorem applyViewAction_zoom_bounds (a : ViewAction) (s : GraphState)
    (h1 : 1 / 2 ≤ s.zoom) (h2 : s.zoom ≤ 2) :
    1 / 2 ≤ (applyViewAction a s).zoom ∧ (applyViewAction a s).zoom ≤ 2 := by
  cases a with
  | wheel d =>
    refine ⟨le_min (le_max_right _ _) (by norm_num), min_le_right _ _⟩
  | zoomIn =>
    exact ⟨le_min (by linarith) (by norm_num), min_le_right _ _⟩
  | zoomOut =>
    exact ⟨le_max_right _ _, max_le (by linarith) (by norm_num)⟩
  | reset =>
    exact ⟨by norm_num [applyViewAction, resetButton], by norm_num [applyViewAction, resetButton]⟩

/-- C9: starting from zoom factor 1, after any sequence of wheel events,
zoom-in button actions, zoom-out button actions and reset actions the
zoom factor lies in [1/2, 2]. -/
theorem zoom_always_in_bounds (acts : List ViewAction) (s : GraphState)
    (h : s.zoom = 1) :
    1 / 2 ≤ (applyViewActions acts s).zoom ∧ (applyViewActions acts s).zoom ≤ 2 := by
  have inv : ∀ (l : List ViewAction) (t : GraphState), 1 / 2 ≤ t.zoom → t.zoom ≤ 2 →
      1 / 2 ≤ (applyViewActions l t).zoom ∧ (applyViewActions l t).zoom ≤ 2 := by
    intro l
    induction l with
    | nil => intro t g1 g2; exact ⟨g1, g2⟩
    | cons a l ih =>
      intro t g1 g2
      have hb := applyViewAction_zoom_bounds a t g1 g2
      exact ih _ hb.1 hb.2
  exact inv acts s (by rw [h]; norm_num) (by rw [h]; norm_num)

/-- Witness for C9: the initial state has zoom 1, and after a zoom-in, two
wheel-down events and a reset the zoom is still within bounds. -/
theorem zoom_always_in_bounds_witness :
    (initialState false).zoom = 1 ∧
    (1 / 2 ≤ (applyViewActions
        [ViewAction.zoomIn, ViewAction.wheel 3, ViewAction.wheel 3, ViewAction.reset]
        (initialState false)).zoom ∧
      (applyViewActions
        [ViewAction.zoomIn, ViewAction.wheel 3, ViewAction.wheel 3, ViewAction.reset]
        (initialState false)).zoom ≤ 2) :=
  ⟨rfl, zoom_always_in_bounds _ (initialState false) rfl⟩

end GraphEditor

namespace GraphEditor

/-! ### C1: node ids are derived from the clock and can collide -/

/-- C1: the id of a new node is `Date.now().toString()`, so two `addNode`
calls within the same millisecond (here both at clock value 1000) produce
the same id: before the second call the id "1000" already exists, and
after it the store holds two nodes with that id. -/
theorem addNode_id_collision :
    ("1000" ∈ ((addNode 1000 0 0 (initialState false)).1.nodes.map NodeType.id)) ∧
    (((addNode 1000 0 0 (addNode 1000 0 0 (initialState false)).1).1.nodes.map
        NodeType.id).count "1000" = 2) := by
  constructor
  · decide
  · decide

/-! ### C2: operations on an id that does not occur in the store -/

/-- State for the C2 counterexample: the default component state with
node "1" selected and being edited. -/
def c2State : GraphState :=
  { initialState false with selectedNode := some "1", editingNode := some "1" }

/-- C2 counterexample: "999" occurs nowhere in the store, yet
`deleteNode "999"` does not leave the state unchanged — it nulls the
selection id (and the edit-mode id). -/
theorem deleteNode_missing_id_not_noop :
    ("999" ∉ c2State.nodes.map NodeType.id) ∧
    ("999" ∉ c2State.edges.map EdgeType.id) ∧
    ("999" ∉ c2State.edges.map EdgeType.from_) ∧
    ("999" ∉ c2State.edges.map EdgeType.to_) ∧
    c2State.selectedNode = some "1" ∧
    (deleteNode "999" c2State).1.selectedNode = none := by
  refine ⟨by decide, by decide, by decide, by decide, rfl, ?_⟩
  decide

/-- C2 amended: for an id that occurs nowhere in the store (neither as a
node id, an edge id, nor an edge endpoint), `updateNodeText` and
`deleteEdge` leave the entire state unchanged, while `deleteNode` leaves
the node and edge collections (and all other fields) unchanged but
unconditionally nulls the selection id and the edit-mode id; none of the
three reports an error (every toast emitted is success-kind). -/
theorem missing_id_ops (id text : String) (s : GraphState)
    (hn : id ∉ s.nodes.map NodeType.id)
    (hei : id ∉ s.edges.map EdgeType.id)
    (hef : id ∉ s.edges.map EdgeType.from_)
    (het : id ∉ s.edges.map EdgeType.to_) :
    updateNodeText id text s = s ∧
    (deleteEdge id s).1 = s ∧
    (deleteNode id s).1 = { s with selectedNode := none, editingNode := none } ∧
    (∀ t ∈ (deleteEdge id s).2, t.kind = ToastKind.success) ∧
    (∀ t ∈ (deleteNode id s).2, t.kind = ToastKind.success) := by
  have hn' : ∀ n ∈ s.nodes, ¬(n.id = id) := by
    intro n hmem heq
    exact hn (heq ▸ List.mem_map_of_mem NodeType.id hmem)
  have hei' : ∀ e ∈ s.edges, ¬(e.id = id) := by
    intro e hmem heq
    exact hei (heq ▸ List.mem_map_of_mem EdgeType.id hmem)
  have hef' : ∀ e ∈ s.edges, ¬(e.from_ = id) := by
    intro e hmem heq
    exact hef (heq ▸ List.mem_map_of_mem EdgeType.from_ hmem)
  have het' : ∀ e ∈ s.edges, ¬(e.to_ = id) := by
    intro e hmem heq
    exact het (heq ▸ List.mem_map_of_mem EdgeType.to_ hmem)
  have hmap : s.nodes.map (fun n => if n.id == id then { n with text := text } else n)
      = s.nodes := by
    conv_rhs => rw [← List.map_id s.nodes]
    apply List.map_congr_left
    intro n hmem
    simp [hn' n hmem]
  have hnodes : s.nodes.filter (fun n => !(n.id == id)) = s.nodes := by
    rw [List.filter_eq_self]
    intro n hmem
    simp [hn' n hmem]
  have hedges : s.edges.filter (fun e => !(e.from_ == id) && !(e.to_ == id)) = s.edges := by
    rw [List.filter_eq_self]
    intro e hmem
    simp [hef' e hmem, het' e hmem]
  have heid : s.edges.filter (fun e => !(e.id == id)) = s.edges := by
    rw [List.filter_eq_self]
    intro e hmem
    simp [hei' e hmem]
  refine ⟨?_, ?_, ?_, ?_, ?_⟩
  · show ({ s with
        nodes := s.nodes.map (fun n => if n.id == id then { n with text := text } else n) }
          : GraphState) = s
    rw [hmap]
  · show ({ s with edges := s.edges.filter (fun e => !(e.id == id)) } : GraphState) = s
    rw [heid]
  · show ({ s with
        nodes := s.nodes.filter (fun n => !(n.id == id))
        edges := s.edges.filter (fun e => !(e.from_ == id) && !(e.to_ == id))
        selectedNode := none
        editingNode := none } : GraphState)
      = { s with selectedNode := none, editingNode := none }
    rw [hnodes, hedges]
  · intro t ht
    simp only [deleteEdge, List.mem_singleton] at ht
    rw [ht]
  · intro t ht
    simp only [deleteNode, List.mem_singleton] at ht
    rw [ht]

/-- Witness for the amended C2 at the concrete id "999" and the default
component state. -/
theorem missing_id_ops_witness :
    (("999" ∉ (initialState false).nodes.map NodeType.id) ∧
     ("999" ∉ (initialState false).edges.map EdgeType.id) ∧
     ("999" ∉ (initialState false).edges.map EdgeType.from_) ∧
     ("999" ∉ (initialState false).edges.map EdgeType.to_)) ∧
    (updateNodeText "999" "abc" (initialState false) = initialState false ∧
     (deleteEdge "999" (initialState false)).1 = initialState false ∧
     (deleteNode "999" (initialState false)).1 =
       { initialState false with selectedNode := none, editingNode := none }) :=
  ⟨⟨by decide, by decide, by decide, by decide⟩,
   (missing_id_ops "999" "abc" (initialState false)
      (by decide) (by decide) (by decide) (by decide)).1,
   (missing_id_ops "999" "abc" (initialState false)
      (by decide) (by decide) (by decide) (by decide)).2.1,
   (missing_id_ops "999" "abc" (initialState false)
      (by decide) (by decide) (by decide) (by decide)).2.2.1⟩

end GraphEditor

namespace GraphEditor

/-! ### C6: the view filter -/

/-- Node A of the spec's filter scenario. -/
def alphaNode : NodeType := ⟨"a", "alpha", 0, 0⟩

/-- Node B of the spec's filter scenario. -/
def betaNode : NodeType := ⟨"b", "beta", 0, 0⟩

/-- The spec's filter scenario: nodes A("alpha"), B("beta"), an edge
A→B of type primary, and query "alpha". -/
def alphaBetaState : GraphState :=
  { initialState false with
      nodes := [alphaNode, betaNode]
      edges := [⟨"e", "a", "b", "primary"⟩]
      searchQuery := "alpha" }

/-- C6: a node is visible iff its lower-cased text contains the
lower-cased query as a substring; with an empty query every node and
edge is visible; with a non-empty query an edge is visible iff both of
its endpoints are among the visible nodes; and in the alpha/beta
scenario the visible nodes are exactly A and the visible edges are
empty. -/
theorem view_filter_spec (s : GraphState) (n : NodeType) (e : EdgeType) :
    (n ∈ filteredNodes s ↔
      n ∈ s.nodes ∧
        hasSubstr (lowerStr n.text).data (lowerStr s.searchQuery).data = true) ∧
    (s.searchQuery = "" → filteredNodes s = s.nodes ∧ filteredEdges s = s.edges) ∧
    (s.searchQuery ≠ "" →
      (e ∈ filteredEdges s ↔ e ∈ s.edges ∧
        ((∃ a ∈ filteredNodes s, a.id = e.from_) ∧
         (∃ b ∈ filteredNodes s, b.id = e.to_)))) ∧
    filteredNodes alphaBetaState = [alphaNode] ∧
    filteredEdges alphaBetaState = [] := by
  refine ⟨?_, ?_, ?_, by decide, by decide⟩
  · simp [filteredNodes, List.mem_filter]
  · intro h
    constructor
    · rw [filteredNodes, List.filter_eq_self]
      intro m hm
      simp [h, lowerStr, hasSubstr_nil]
    · simp [filteredEdges, h]
  · intro h
    simp [filteredEdges, h, List.mem_filter, List.any_eq_true, beq_iff_eq, and_assoc]

/-- Witness for C6: the default component state has an empty query, and
the filter then passes all nodes and edges through. -/
theorem view_filter_spec_witness :
    ((initialState false).searchQuery = "") ∧
    (filteredNodes (initialState false) = (initialState false).nodes ∧
     filteredEdges (initialState false) = (initialState false).edges) :=
  ⟨rfl,
   (view_filter_spec (initialState false) alphaNode ⟨"e", "a", "b", "primary"⟩).2.1 rfl⟩

end GraphEditor

namespace GraphEditor

/-! ### C7: edge creation -/

/-- C7: `addEdge` with no selected node aborts silently; with a selected
node but no other node in the store it aborts with an error toast (the
"no eligible target" report) and changes no state; otherwise it appends
exactly one edge from the selected node to the first other node in store
order, carrying the requested type tag. -/
theorem addEdge_spec (now : ℕ) (ty : String) (s : GraphState) :
    (s.selectedNode = none → addEdge now ty s = (s, [])) ∧
    (∀ sel, s.selectedNode = some sel →
      (s.nodes.filter (fun n => !(n.id == sel)) = [] →
        addEdge now ty s =
          (s, [⟨ToastKind.error, "Нужен ещё один узел для создания связи"⟩])) ∧
      (∀ targetNode rest, s.nodes.filter (fun n => !(n.id == sel)) = targetNode :: rest →
        (addEdge now ty s).1 =
          { s with edges := s.edges ++ [⟨toString now, sel, targetNode.id, ty⟩] } ∧
        (addEdge now ty s).2 =
          [⟨ToastKind.success,
            if ty == "primary" then "Связь основная создана" else "Связь псевдоним создана"⟩])) := by
  constructor
  · intro h
    unfold addEdge
    rw [h]
  · intro sel hsel
    constructor
    · intro hempty
      unfold addEdge
      rw [hsel]
      dsimp only
      rw [hempty]
    · intro targetNode rest hcons
      unfold addEdge
      rw [hsel]
      dsimp only
      rw [hcons]
      exact ⟨rfl, rfl⟩

/-- State for the C7 witness: the default component state with node "1"
selected. -/
def c7State : GraphState := { initialState false with selectedNode := some "1" }

/-- State for the C7 witness error branch: a single node, selected. -/
def c7SoloState : GraphState :=
  { initialState false with nodes := [⟨"1", "solo", 0, 0⟩], selectedNode := some "1" }

/-- Witness for C7: with nodes "2" and "3" as eligible targets, the
edge goes to node "2" (first in store order); with a lone node the
action aborts with the error toast and an unchanged state. -/
theorem addEdge_spec_witness :
    c7State.selectedNode = some "1" ∧
    c7State.nodes.filter (fun n => !(n.id == "1")) =
      (⟨"2", "Развитие концепции", 450, 150⟩ : NodeType) ::
        [⟨"3", "Альтернативный подход", 325, 300⟩] ∧
    (addEdge 99 "alias" c7State).1 =
      { c7State with edges := c7State.edges ++ [⟨toString (99 : ℕ), "1", "2", "alias"⟩] } ∧
    c7SoloState.nodes.filter (fun n => !(n.id == "1")) = [] ∧
    addEdge 99 "primary" c7SoloState =
      (c7SoloState, [⟨ToastKind.error, "Нужен ещё один узел для создания связи"⟩]) := by
  refine ⟨rfl, by decide, ?_, by decide, ?_⟩
  · exact (((addEdge_spec 99 "alias" c7State).2 "1" rfl).2
      ⟨"2", "Развитие концепции", 450, 150⟩ [⟨"3", "Альтернативный подход", 325, 300⟩]
      (by decide)).1
  · exact ((addEdge_spec 99 "primary" c7SoloState).2 "1" rfl).1 (by decide)

end GraphEditor

namespace GraphEditor

/-! ### C5: the double-tap window -/

/-- C5 counterexample: two pointer-down events on node "1" in the same
millisecond (both at clock value 1000).  The second arrives 0ms — hence
less than 300ms — after the first, yet because the code requires
`tapGap > 0` it does not enter edit mode and instead starts a drag. -/
theorem same_millisecond_taps_start_drag :
    ((1000 : ℤ) - 1000 < 300) ∧
    ¬((handleNodePointerDown 1000 0 0 "1"
        (handlePointerUp (handleNodePointerDown 1000 0 0 "1" (initialState false)))).editingNode
          = some "1" ∧
      (handleNodePointerDown 1000 0 0 "1"
        (handlePointerUp (handleNodePointerDown 1000 0 0 "1" (initialState false)))).dragNode
          = none) := by
  refine ⟨by decide, ?_⟩
  decide

/-- C5 amended: after a first down-event that registered as a tap, a
second down-event on any existing node strictly later and less than
300ms after the first enters edit mode for its own target and starts no
drag; a second event 300ms or later is a fresh first tap and starts a
normal drag.  Node identity plays no role: the two events may target
different nodes. -/
theorem double_tap_window (s : GraphState) (n1 n2 : String) (node1 node2 : NodeType)
    (t1 t2 : ℤ) (x1 y1 x2 y2 : ℚ)
    (h1 : s.nodes.find? (fun n => n.id == n1) = some node1)
    (h2 : s.nodes.find? (fun n => n.id == n2) = some node2)
    (hreg : ¬(t1 - s.lastTap < 300 ∧ t1 - s.lastTap > 0)) :
    (t1 < t2 → t2 < t1 + 300 →
      (handleNodePointerDown t2 x2 y2 n2
          (handlePointerUp (handleNodePointerDown t1 x1 y1 n1 s))).editingNode = some n2 ∧
      (handleNodePointerDown t2 x2 y2 n2
          (handlePointerUp (handleNodePointerDown t1 x1 y1 n1 s))).dragNode = none) ∧
    (t1 + 300 ≤ t2 →
      (handleNodePointerDown t2 x2 y2 n2
          (handlePointerUp (handleNodePointerDown t1 x1 y1 n1 s))).dragNode = some n2 ∧
      (handleNodePointerDown t2 x2 y2 n2
          (handlePointerUp (handleNodePointerDown t1 x1 y1 n1 s))).selectedNode = some n2 ∧
      (handleNodePointerDown t2 x2 y2 n2
          (handlePointerUp (handleNodePointerDown t1 x1 y1 n1 s))).editingNode
        = s.editingNode) := by
  rw [nodeDown_register t1 x1 y1 n1 s node1 h1 hreg]
  constructor
  · intro ha hb
    rw [nodeDown_doubleTap t2 x2 y2 n2 _ node2 (by exact h2)
      (by constructor
          · show t2 - t1 < 300
            omega
          · show t2 - t1 > 0
            omega)]
    exact ⟨rfl, rfl⟩
  · intro hge
    rw [nodeDown_register t2 x2 y2 n2 _ node2 (by exact h2)
      (by show ¬(t2 - t1 < 300 ∧ t2 - t1 > 0); omega)]
    exact ⟨rfl, rfl, rfl⟩

/-- Witness for the amended C5: down on node "1" at 1000, up, down on
the different node "2" at 1100 (100ms later): node "2" enters edit mode
and no drag starts. -/
theorem double_tap_window_witness :
    ((initialState false).nodes.find? (fun n => n.id == "1") =
        some ⟨"1", "Начальная идея", 200, 150⟩) ∧
    ((handleNodePointerDown 1100 0 0 "2"
        (handlePointerUp (handleNodePointerDown 1000 0 0 "1" (initialState false)))).editingNode
          = some "2" ∧
     (handleNodePointerDown 1100 0 0 "2"
        (handlePointerUp (handleNodePointerDown 1000 0 0 "1" (initialState false)))).dragNode
          = none) :=
  ⟨by decide,
   (double_tap_window (initialState false) "1" "2" ⟨"1", "Начальная идея", 200, 150⟩
      ⟨"2", "Развитие концепции", 450, 150⟩ 1000 1100 0 0 0 0
      (by decide) (by decide) (by decide)).1 (by decide) (by decide)⟩

end GraphEditor

namespace GraphEditor

/-! ### C4: dragging follows the pointer -/

/-- Field-level description of the drag branch of `handlePointerMove`:
pan, zoom, drag context are untouched; every node carrying the dragged
id is repositioned to `(client - pan)/zoom - dragOffset`. -/
theorem move_drag_fields (clientX clientY : ℚ) (s : GraphState) (d : String)
    (h : s.dragNode = some d) :
    (handlePointerMove clientX clientY s).pan = s.pan ∧
    (handlePointerMove clientX clientY s).zoom = s.zoom ∧
    (handlePointerMove clientX clientY s).dragOffset = s.dragOffset ∧
    (handlePointerMove clientX clientY s).dragNode = s.dragNode ∧
    (handlePointerMove clientX clientY s).nodes =
      s.nodes.map (fun n => if n.id == d then
        { n with
            x := (clientX - s.pan.1) / s.zoom - s.dragOffset.1,
            y := (clientY - s.pan.2) / s.zoom - s.dragOffset.2 } else n) := by
  unfold handlePointerMove
  rw [h]
  exact ⟨rfl, rfl, rfl, rfl, rfl⟩

/-- Repositioning a node does not change its id, so the id test is
invariant under the repositioning map. -/
theorem posUpdate_id_inv (d : String) (X Y : ℚ) (n : NodeType) :
    (((if n.id == d then { n with x := X, y := Y } else n) : NodeType).id == d)
      = (n.id == d) := by
  cases hc : (n.id == d) <;> simp [hc]

/-- A sequence of pointer moves during a drag keeps the drag context,
pan, zoom and the presence of the dragged node. -/
theorem applyMoves_drag_invariant (ps : List (ℚ × ℚ)) :
    ∀ (s : GraphState) (d : String), s.dragNode = some d →
      (applyMoves ps s).dragNode = some d ∧
      (applyMoves ps s).pan = s.pan ∧
      (applyMoves ps s).zoom = s.zoom ∧
      (applyMoves ps s).dragOffset = s.dragOffset ∧
      ((applyMoves ps s).nodes.find? (fun n => n.id == d)).isSome
        = (s.nodes.find? (fun n => n.id == d)).isSome := by
  induction ps with
  | nil =>
    intro s d h
    exact ⟨h, rfl, rfl, rfl, rfl⟩
  | cons p ps ih =>
    intro s d h
    have hstep : applyMoves (p :: ps) s = applyMoves ps (handlePointerMove p.1 p.2 s) := rfl
    obtain ⟨f1, f2, f3, f4, f5⟩ := move_drag_fields p.1 p.2 s d h
    have hd : (handlePointerMove p.1 p.2 s).dragNode = some d := by rw [f4, h]
    obtain ⟨a1, a2, a3, a4, a5⟩ := ih (handlePointerMove p.1 p.2 s) d hd
    rw [hstep]
    refine ⟨a1, ?_, ?_, ?_, ?_⟩
    · rw [a2, f1]
    · rw [a3, f2]
    · rw [a4, f3]
    · rw [a5, f5,
        find?_map_of_pred_inv _ _ (fun n => posUpdate_id_inv d _ _ n) s.nodes]
      cases s.nodes.find? (fun n => n.id == d) <;> rfl

/-- One pointer move during a drag puts the dragged node (resolved as
the first node in store order with the dragged id) at
`(client - pan)/zoom - dragOffset`. -/
theorem nodePos_move (clientX clientY : ℚ) (s : GraphState) (d : String)
    (h : s.dragNode = some d)
    (hsome : (s.nodes.find? (fun n => n.id == d)).isSome = true) :
    nodePos d (handlePointerMove clientX clientY s) =
      some ((clientX - s.pan.1) / s.zoom - s.dragOffset.1,
            (clientY - s.pan.2) / s.zoom - s.dragOffset.2) := by
  obtain ⟨n0, hn0⟩ := Option.isSome_iff_exists.mp hsome
  have hp0 : (n0.id == d) = true := by simpa using List.find?_some hn0
  obtain ⟨f1, f2, f3, f4, f5⟩ := move_drag_fields clientX clientY s d h
  unfold nodePos
  rw [f5, find?_map_of_pred_inv _ _ (fun n => posUpdate_id_inv d _ _ n) s.nodes, hn0]
  have hpe : n0.id = d := by simpa using hp0
  simp [hpe]

/-- After any move sequence ending with the pointer at `q`, the dragged
node sits at `(q - pan)/zoom - dragOffset`, with pan, zoom and grab
offset those of the drag start. -/
theorem nodePos_after_moves (ps : List (ℚ × ℚ)) (q : ℚ × ℚ) (s : GraphState) (d : String)
    (h : s.dragNode = some d)
    (hsome : (s.nodes.find? (fun n => n.id == d)).isSome = true) :
    nodePos d (applyMoves (ps ++ [q]) s) =
      some ((q.1 - s.pan.1) / s.zoom - s.dragOffset.1,
            (q.2 - s.pan.2) / s.zoom - s.dragOffset.2) := by
  obtain ⟨a1, a2, a3, a4, a5⟩ := applyMoves_drag_invariant ps s d h
  have happ : applyMoves (ps ++ [q]) s = handlePointerMove q.1 q.2 (applyMoves ps s) := by
    unfold applyMoves
    rw [List.foldl_append]
    rfl
  rw [happ, nodePos_move q.1 q.2 _ d a1 (by rw [a5]; exact hsome), a2, a3, a4]

end GraphEditor

namespace GraphEditor

/-- C4: from a drag start (pointer-down at `p0` outside the double-tap
window) the grab offset is `toWorld(p0) - node.position`; after any
sequence of move events ending with the pointer at `q` the dragged
node's world position is `toWorld(q) - grabOffset` (pan and zoom
unchanged by the moves); hence a further move from `q` to a point `r`
shifts the node by exactly the pointer's world-space delta
`toWorld(r) - toWorld(q)`. -/
theorem drag_follows_pointer (s : GraphState) (nodeId : String) (node : NodeType)
    (t : ℤ) (p0 q r : ℚ × ℚ) (ps : List (ℚ × ℚ)) (sDown : GraphState)
    (hfind : s.nodes.find? (fun n => n.id == nodeId) = some node)
    (hreg : ¬(t - s.lastTap < 300 ∧ t - s.lastTap > 0))
    (hsDown : sDown = handleNodePointerDown t p0.1 p0.2 nodeId s) :
    sDown.dragOffset =
      ((toWorld p0 s.pan s.zoom).1 - node.x, (toWorld p0 s.pan s.zoom).2 - node.y) ∧
    nodePos nodeId (applyMoves (ps ++ [q]) sDown) =
      some ((toWorld q s.pan s.zoom).1 - sDown.dragOffset.1,
            (toWorld q s.pan s.zoom).2 - sDown.dragOffset.2) ∧
    ∃ x y x' y',
      nodePos nodeId (applyMoves (ps ++ [q]) sDown) = some (x, y) ∧
      nodePos nodeId (applyMoves (ps ++ [q, r]) sDown) = some (x', y') ∧
      x' - x = (toWorld r s.pan s.zoom).1 - (toWorld q s.pan s.zoom).1 ∧
      y' - y = (toWorld r s.pan s.zoom).2 - (toWorld q s.pan s.zoom).2 := by
  have hreG := nodeDown_register t p0.1 p0.2 nodeId s node hfind hreg
  have h1 : sDown.dragNode = some nodeId := by rw [hsDown, hreG]
  have h2 : sDown.nodes = s.nodes := by rw [hsDown, hreG]
  have h3 : sDown.pan = s.pan := by rw [hsDown, hreG]
  have h4 : sDown.zoom = s.zoom := by rw [hsDown, hreG]
  have h5 : sDown.dragOffset =
      ((p0.1 - s.pan.1) / s.zoom - node.x, (p0.2 - s.pan.2) / s.zoom - node.y) := by
    rw [hsDown, hreG]
  have hsm : (sDown.nodes.find? (fun n => n.id == nodeId)).isSome = true := by
    rw [h2, hfind]
    rfl
  have hq := nodePos_after_moves ps q sDown nodeId h1 hsm
  have hsplit : ps ++ [q, r] = (ps ++ [q]) ++ [r] := by simp
  have hr := nodePos_after_moves (ps ++ [q]) r sDown nodeId h1 hsm
  rw [hsplit]
  refine ⟨?_, ?_, ?_⟩
  · rw [h5]
    rfl
  · rw [hq, h3, h4]
    rfl
  · refine ⟨(q.1 - sDown.pan.1) / sDown.zoom - sDown.dragOffset.1,
      (q.2 - sDown.pan.2) / sDown.zoom - sDown.dragOffset.2,
      (r.1 - sDown.pan.1) / sDown.zoom - sDown.dragOffset.1,
      (r.2 - sDown.pan.2) / sDown.zoom - sDown.dragOffset.2,
      hq, hr, ?_, ?_⟩
    · rw [h3, h4]
      show (r.1 - s.pan.1) / s.zoom - sDown.dragOffset.1 -
          ((q.1 - s.pan.1) / s.zoom - sDown.dragOffset.1) =
        (r.1 - s.pan.1) / s.zoom - (q.1 - s.pan.1) / s.zoom
      ring
    · rw [h3, h4]
      show (r.2 - s.pan.2) / s.zoom - sDown.dragOffset.2 -
          ((q.2 - s.pan.2) / s.zoom - sDown.dragOffset.2) =
        (r.2 - s.pan.2) / s.zoom - (q.2 - s.pan.2) / s.zoom
      ring

/-- Witness for C4: dragging node "1" of the default state from a down
at (10, 20) through a move to (30, 40): the grab offset and the node's
position after the move are as the theorem states. -/
theorem drag_follows_pointer_witness :
    ((initialState false).nodes.find? (fun n => n.id == "1") =
        some ⟨"1", "Начальная идея", 200, 150⟩) ∧
    (handleNodePointerDown 1000 10 20 "1" (initialState false)).dragOffset =
      ((toWorld (10, 20) (initialState false).pan (initialState false).zoom).1 - 200,
       (toWorld (10, 20) (initialState false).pan (initialState false).zoom).2 - 150) ∧
    nodePos "1" (applyMoves ([] ++ [((30 : ℚ), (40 : ℚ))])
        (handleNodePointerDown 1000 10 20 "1" (initialState false))) =
      some ((toWorld (30, 40) (initialState false).pan (initialState false).zoom).1 -
              (handleNodePointerDown 1000 10 20 "1" (initialState false)).dragOffset.1,
            (toWorld (30, 40) (initialState false).pan (initialState false).zoom).2 -
              (handleNodePointerDown 1000 10 20 "1" (initialState false)).dragOffset.2) :=
  ⟨by decide,
   (drag_follows_pointer (initialState false) "1" ⟨"1", "Начальная идея", 200, 150⟩
      1000 (10, 20) (30, 40) (50, 60) [] _ (by decide) (by decide) rfl).1,
   (drag_follows_pointer (initialState false) "1" ⟨"1", "Начальная идея", 200, 150⟩
      1000 (10, 20) (30, 40) (50, 60) [] _ (by decide) (by decide) rfl).2.1⟩

end GraphEditor
